import Mathlib

/-!
ZTracer (blkin-lib/ztracer.hpp)

A shallow embedding of the C++ wrapper classes of `ztracer.hpp` and the
properties of the span lifecycle: construction, derivation from a parent or
from a received context, re-initialisation, export/import of the context,
copying, and the annotation calls.

The header wraps the C library declared in `zipkin_c.h`.  The wrapper code is
embedded over an arbitrary implementation of that library (`Blkin`); the
library itself is additionally given a concrete model (`Spec.lib`).
-/

set_option linter.unusedVariables false

namespace ZTracer

/-! ## Data model -/

/-- A value of type `const char *`.  It is `NULL`, a pointer to a buffer owned
by the caller (identified by its address, together with the text stored
there), or the pointer `_name.c_str()` into the `_name` storage of the `Trace`
object living at address `owner`. -/
inductive CharPtr where
  | null
  | ext (address : Nat) (text : String)
  | c_str (owner : Nat)
  deriving DecidableEq

/-- A value of type `const Endpoint *`: `NULL` or the address of an
`Endpoint` object. -/
abbrev EndpointPtr := Option Nat

/-- The C record `blkin_trace_info`: the exportable identity triple. -/
structure blkin_trace_info where
  trace_id : Nat
  span_id : Nat
  parent_span_id : Nat
  deriving DecidableEq

/-- The C record `blkin_trace`, the private base of `Trace`. -/
structure blkin_trace where
  name : CharPtr
  info : blkin_trace_info
  endpoint : EndpointPtr
  deriving DecidableEq

/-- What a C initialisation function leaves behind: the returned status, the
record it was given a pointer to, and the state of the library. -/
structure LibRet (W : Type) where
  status : Int
  trace : blkin_trace
  world : W

/-- The functions and macros of `zipkin_c.h` that `ztracer.hpp` calls, over a
library state `W` (identity generator, collector).  Each initialisation
function receives the current contents of the record it is asked to fill. -/
structure Blkin (W : Type) where
  blkin_init_new_trace : W → blkin_trace → CharPtr → EndpointPtr → LibRet W
  blkin_init_child : W → blkin_trace → blkin_trace → EndpointPtr → CharPtr → LibRet W
  blkin_init_child_info : W → blkin_trace → blkin_trace_info → EndpointPtr → CharPtr → LibRet W
  BLKIN_KEYVAL_STRING : W → blkin_trace → EndpointPtr → CharPtr → CharPtr → W
  BLKIN_KEYVAL_INTEGER : W → blkin_trace → EndpointPtr → CharPtr → Int → W
  BLKIN_TIMESTAMP : W → blkin_trace → EndpointPtr → CharPtr → W

/-- The class `Trace`: the address of the object, its `_name` storage and its
`blkin_trace` base. -/
structure Trace where
  this : Nat
  _name : String
  base : blkin_trace
  deriving DecidableEq

/-- What `Trace::init` leaves behind: the returned status, the object and the
state of the library. -/
structure Ret (W : Type) where
  status : Int
  trace : Trace
  world : W

/-! ## The class `Trace` -/

/-- The constructor `Trace()`: zero-initialises the base record. -/
def Trace.default (this : Nat) : Trace :=
  { this := this, _name := "",
    base := { name := .null, info := ⟨0, 0, 0⟩, endpoint := none } }

/-- The member `valid()`: `info.trace_id != 0`. -/
def Trace.valid (t : Trace) : Bool := t.base.info.trace_id != 0

/-- The member `get_info()`. -/
def Trace.get_info (t : Trace) : blkin_trace_info := t.base.info

/-- The member `set_info(i)`: `info = *i`. -/
def Trace.set_info (t : Trace) (i : blkin_trace_info) : Trace :=
  { t with base := { t.base with info := i } }

/-- The member `copy_name(newname)`: stores the text in `_name` and points
`name` at that storage. -/
def Trace.copy_name (t : Trace) (newname : String) : Trace :=
  { t with _name := newname, base := { t.base with name := .c_str t.this } }

/-- The constructor `Trace(name, ep, parent = NULL)`, building the object at
address `this` over the not yet initialised base record `raw`.  The status of
the C call is dropped. -/
def Trace.ofParent {W : Type} (lib : Blkin W) (w : W) (this : Nat) (raw : blkin_trace)
    (name : CharPtr) (ep : EndpointPtr) (parent : Option Trace) : Trace × W :=
  let root :=
    let r := lib.blkin_init_new_trace w raw name ep
    ({ this := this, _name := "", base := r.trace }, r.world)
  match parent with
  | some p =>
    if p.valid then
      let r := lib.blkin_init_child w raw p.base (ep <|> p.base.endpoint) name
      ({ this := this, _name := "", base := r.trace }, r.world)
    else root
  | none => root

/-- The constructor `Trace(name, ep, i, child = false)`, building the object
at address `this` over the not yet initialised base record `raw`. -/
def Trace.ofInfo {W : Type} (lib : Blkin W) (w : W) (this : Nat) (raw : blkin_trace)
    (name : CharPtr) (ep : EndpointPtr) (i : blkin_trace_info) (child : Bool) : Trace × W :=
  if child then
    let r := lib.blkin_init_child_info w raw i ep name
    ({ this := this, _name := "", base := r.trace }, r.world)
  else
    let r := lib.blkin_init_new_trace w raw name ep
    (Trace.set_info { this := this, _name := "", base := r.trace } i, r.world)

/-- The copy constructor `Trace(const Trace &rhs)`, building the copy at
address `this`. -/
def Trace.copy (this : Nat) (rhs : Trace) : Trace :=
  { this := this, _name := rhs._name,
    base :=
      { name := if rhs.base.name = .c_str rhs.this then .c_str this else rhs.base.name,
        info := rhs.base.info,
        endpoint := rhs.base.endpoint } }

/-- The member `init(name, ep, parent = NULL)`. -/
def Trace.init {W : Type} (lib : Blkin W) (w : W) (t : Trace)
    (name : CharPtr) (ep : EndpointPtr) (parent : Option Trace) : Ret W :=
  let root :=
    let r := lib.blkin_init_new_trace w t.base name ep
    (⟨r.status, { t with base := r.trace }, r.world⟩ : Ret W)
  match parent with
  | some p =>
    if p.valid then
      let r := lib.blkin_init_child w t.base p.base (ep <|> p.base.endpoint) name
      ⟨r.status, { t with base := r.trace }, r.world⟩
    else root
  | none => root

/-- The member `init(name, ep, i, child = false)`.  Both C calls are handed
`_name.c_str()`; the parameter `name` is not used. -/
def Trace.init_info {W : Type} (lib : Blkin W) (w : W) (t : Trace)
    (name : CharPtr) (ep : EndpointPtr) (i : blkin_trace_info) (child : Bool) : Ret W :=
  if child then
    let r := lib.blkin_init_child_info w t.base i ep (.c_str t.this)
    ⟨r.status, { t with base := r.trace }, r.world⟩
  else
    let r := lib.blkin_init_new_trace w t.base (.c_str t.this) ep
    if r.status = 0 then
      ⟨r.status, Trace.set_info { t with base := r.trace } i, r.world⟩
    else
      ⟨r.status, { t with base := r.trace }, r.world⟩

/-- The member `keyval(const char *key, const char *val)`. -/
def Trace.keyval {W : Type} (lib : Blkin W) (w : W) (t : Trace)
    (key val : CharPtr) : Trace × W :=
  if t.valid then (t, lib.BLKIN_KEYVAL_STRING w t.base t.base.endpoint key val) else (t, w)

/-- The member `keyval(const char *key, int64_t val)`. -/
def Trace.keyval_int {W : Type} (lib : Blkin W) (w : W) (t : Trace)
    (key : CharPtr) (val : Int) : Trace × W :=
  if t.valid then (t, lib.BLKIN_KEYVAL_INTEGER w t.base t.base.endpoint key val) else (t, w)

/-- The member `keyval(const char *key, const char *val, const Endpoint *ep)`. -/
def Trace.keyval_ep {W : Type} (lib : Blkin W) (w : W) (t : Trace)
    (key val : CharPtr) (ep : EndpointPtr) : Trace × W :=
  if t.valid then (t, lib.BLKIN_KEYVAL_STRING w t.base ep key val) else (t, w)

/-- The member `keyval(const char *key, int64_t val, const Endpoint *ep)`. -/
def Trace.keyval_int_ep {W : Type} (lib : Blkin W) (w : W) (t : Trace)
    (key : CharPtr) (val : Int) (ep : EndpointPtr) : Trace × W :=
  if t.valid then (t, lib.BLKIN_KEYVAL_INTEGER w t.base ep key val) else (t, w)

/-- The member `event(const char *event)`. -/
def Trace.event {W : Type} (lib : Blkin W) (w : W) (t : Trace)
    (event : CharPtr) : Trace × W :=
  if t.valid then (t, lib.BLKIN_TIMESTAMP w t.base t.base.endpoint event) else (t, w)

/-- The member `event(const char *event, const Endpoint *ep)`. -/
def Trace.event_ep {W : Type} (lib : Blkin W) (w : W) (t : Trace)
    (event : CharPtr) (ep : EndpointPtr) : Trace × W :=
  if t.valid then (t, lib.BLKIN_TIMESTAMP w t.base ep event) else (t, w)

/-- The text a `Trace` is named by: what its `name` pointer refers to.  A
pointer into the `_name` storage of another object cannot be read here. -/
def Trace.name_text (t : Trace) : Option String :=
  match t.base.name with
  | .null => none
  | .ext _ s => some s
  | .c_str o => if o = t.this then some t._name else none

/-! ## The C library -/

namespace Spec

/-- Modelled from the spec: a tuple handed to the collector by the absent
macros `BLKIN_KEYVAL_STRING`, `BLKIN_KEYVAL_INTEGER` and `BLKIN_TIMESTAMP`,
of the shape (context, endpoint, key, value or timestamp). -/
inductive Emitted where
  | keyval_string (ctx : blkin_trace_info) (ep : EndpointPtr) (key val : CharPtr)
  | keyval_integer (ctx : blkin_trace_info) (ep : EndpointPtr) (key : CharPtr) (val : Int)
  | timestamp (ctx : blkin_trace_info) (ep : EndpointPtr) (event : CharPtr) (time : Nat)
  deriving DecidableEq

/-- Modelled from the spec: the state of the absent C library.  `draws` lists
the outcomes the identity generator will deliver next, `clock` is the wall
clock and `log` the records handed to the collector, latest first. -/
structure World where
  draws : List Nat
  clock : Nat
  log : List Emitted
  deriving DecidableEq

/-- Modelled from the spec: the absent identity generator.  It mints a
non-zero 64-bit identifier, or fails when its source has nothing to deliver
(no outcome left, or an outcome that is not a non-zero 64-bit value). -/
def mint (w : World) : Option (Nat × World) :=
  match w.draws with
  | [] => none
  | d :: rest =>
    if 0 < d ∧ d < 18446744073709551616 then some (d, { w with draws := rest }) else none

/-- Modelled from the spec: the absent C function `blkin_init_new_trace`
(mode Root).  It mints a fresh non-zero trace id and span id, sets the parent
span id to 0, binds the endpoint and stores the name; when identity generation
fails it returns a non-zero status and leaves the record as it was. -/
def blkin_init_new_trace (w : World) (t : blkin_trace) (name : CharPtr)
    (ep : EndpointPtr) : LibRet World :=
  match mint w with
  | none => ⟨-1, t, w⟩
  | some (tid, w1) =>
    match mint w1 with
    | none => ⟨-1, t, w⟩
    | some (sid, w2) => ⟨0, { name := name, info := ⟨tid, sid, 0⟩, endpoint := ep }, w2⟩

/-- Modelled from the spec: the absent C function `blkin_init_child_info`
(mode From-context, child).  The context is the parent's: the trace id is the
context's, the span id is freshly minted and the parent span id is the
context's span id; when identity generation fails it returns a non-zero status
and leaves the record as it was. -/
def blkin_init_child_info (w : World) (t : blkin_trace) (i : blkin_trace_info)
    (ep : EndpointPtr) (name : CharPtr) : LibRet World :=
  match mint w with
  | none => ⟨-1, t, w⟩
  | some (sid, w1) =>
    ⟨0, { name := name, info := ⟨i.trace_id, sid, i.span_id⟩, endpoint := ep }, w1⟩

/-- Modelled from the spec: the absent C function `blkin_init_child` (mode
Child-of-Trace): a child of the context of the parent record, bound to the
endpoint it is handed. -/
def blkin_init_child (w : World) (t : blkin_trace) (parent : blkin_trace)
    (ep : EndpointPtr) (name : CharPtr) : LibRet World :=
  blkin_init_child_info w t parent.info ep name

/-- Modelled from the spec: the absent C library of `zipkin_c.h` as a whole.
The three macros hand one tuple each to the collector; a timestamp record
carries the wall clock at the time of the call. -/
def lib : Blkin World where
  blkin_init_new_trace := blkin_init_new_trace
  blkin_init_child := blkin_init_child
  blkin_init_child_info := blkin_init_child_info
  BLKIN_KEYVAL_STRING := fun w t ep key val =>
    { w with log := .keyval_string t.info ep key val :: w.log }
  BLKIN_KEYVAL_INTEGER := fun w t ep key val =>
    { w with log := .keyval_integer t.info ep key val :: w.log }
  BLKIN_TIMESTAMP := fun w t ep event =>
    { w with log := .timestamp t.info ep event w.clock :: w.log }

end Spec

/-! ## Sample values -/

/-- A library state whose generator delivers 5, 6 and 9. -/
def sampleWorld : Spec.World := { draws := [5, 6, 9], clock := 100, log := [] }

/-- A library state whose generator has nothing to deliver. -/
def dryWorld : Spec.World := { draws := [], clock := 100, log := [] }

/-- Storage that has not been initialised, with arbitrary contents. -/
def sampleRaw : blkin_trace :=
  { name := .null, info := ⟨77, 78, 79⟩, endpoint := some 3 }

/-- A valid root Trace at address 1 with endpoint 10. -/
def sampleRoot : Trace :=
  { this := 1, _name := "",
    base := { name := .ext 500 "request", info := ⟨11, 12, 0⟩, endpoint := some 10 } }

/-- The context (42, 7, 0). -/
def sampleCtx : blkin_trace_info := ⟨42, 7, 0⟩

/-- An invalid Trace at address 9 that still carries ids and an endpoint. -/
def staleTrace : Trace :=
  { this := 9, _name := "",
    base := { name := .ext 502 "stale", info := ⟨0, 55, 56⟩, endpoint := some 20 } }

/-- Storage whose bytes all happen to be zero. -/
def zeroRaw : blkin_trace :=
  { name := .null, info := ⟨0, 0, 0⟩, endpoint := none }

/-- The sample root after `copy_name("tmp-name")`: its name is bound to its
own storage. -/
def ownedTrace : Trace := sampleRoot.copy_name "tmp-name"

/-! ## Facts about the library model -/

theorem Spec.mint_nonzero (w w1 : Spec.World) (id : Nat) (h : Spec.mint w = some (id, w1)) :
    id ≠ 0 := by
  unfold Spec.mint at h
  cases hd : w.draws with
  | nil => simp [hd] at h
  | cons d rest =>
    simp only [hd] at h
    split at h
    · rename_i hr
      simp only [Option.some.injEq, Prod.mk.injEq] at h
      omega
    · simp at h

theorem Spec.child_info_status (w : Spec.World) (t : blkin_trace) (i : blkin_trace_info)
    (ep : EndpointPtr) (name : CharPtr)
    (h : (Spec.blkin_init_child_info w t i ep name).status = 0) :
    ∃ id w1, Spec.mint w = some (id, w1) ∧
      Spec.blkin_init_child_info w t i ep name
        = ⟨0, { name := name, info := ⟨i.trace_id, id, i.span_id⟩, endpoint := ep }, w1⟩ := by
  unfold Spec.blkin_init_child_info at h ⊢
  cases hm : Spec.mint w with
  | none => simp [hm] at h
  | some r => exact ⟨r.1, r.2, rfl, rfl⟩

theorem Spec.child_info_of_mint {w w1 : Spec.World} {id : Nat}
    (hm : Spec.mint w = some (id, w1)) (t : blkin_trace) (i : blkin_trace_info)
    (ep : EndpointPtr) (name : CharPtr) :
    Spec.blkin_init_child_info w t i ep name
      = ⟨0, { name := name, info := ⟨i.trace_id, id, i.span_id⟩, endpoint := ep }, w1⟩ := by
  simp [Spec.blkin_init_child_info, hm]

theorem Spec.new_trace_status (w : Spec.World) (t : blkin_trace) (name : CharPtr)
    (ep : EndpointPtr) (h : (Spec.blkin_init_new_trace w t name ep).status = 0) :
    ∃ tid sid w1 w2, Spec.mint w = some (tid, w1) ∧ Spec.mint w1 = some (sid, w2) ∧
      Spec.blkin_init_new_trace w t name ep
        = ⟨0, { name := name, info := ⟨tid, sid, 0⟩, endpoint := ep }, w2⟩ := by
  unfold Spec.blkin_init_new_trace at h ⊢
  cases hm : Spec.mint w with
  | none => simp [hm] at h
  | some r =>
    cases hm1 : Spec.mint r.2 with
    | none => simp [hm, hm1] at h
    | some r1 => exact ⟨r.1, r1.1, r.2, r1.2, rfl, hm1, by simp [hm1]⟩

/-! ## The two branches of `init` with a parent -/

theorem Trace.init_of_valid {W : Type} (lib : Blkin W) (w : W) (t : Trace) (name : CharPtr)
    (ep : EndpointPtr) (p : Trace) (hv : p.valid = true) :
    Trace.init lib w t name ep (some p)
      = ⟨(lib.blkin_init_child w t.base p.base (ep <|> p.base.endpoint) name).status,
          { t with base :=
              (lib.blkin_init_child w t.base p.base (ep <|> p.base.endpoint) name).trace },
          (lib.blkin_init_child w t.base p.base (ep <|> p.base.endpoint) name).world⟩ := by
  simp [Trace.init, hv]

theorem Trace.init_of_invalid {W : Type} (lib : Blkin W) (w : W) (t : Trace) (name : CharPtr)
    (ep : EndpointPtr) (parent : Option Trace) (h : ∀ p, parent = some p → p.valid = false) :
    Trace.init lib w t name ep parent
      = ⟨(lib.blkin_init_new_trace w t.base name ep).status,
          { t with base := (lib.blkin_init_new_trace w t.base name ep).trace },
          (lib.blkin_init_new_trace w t.base name ep).world⟩ := by
  cases parent with
  | none => simp [Trace.init]
  | some p => simp [Trace.init, h p rfl]

theorem Trace.init_info_resume {W : Type} (lib : Blkin W) (w : W) (t : Trace)
    (name : CharPtr) (ep : EndpointPtr) (ctx : blkin_trace_info)
    (hs : (Trace.init_info lib w t name ep ctx false).status = 0) :
    (Trace.init_info lib w t name ep ctx false).trace.base.info = ctx := by
  by_cases hr : (lib.blkin_init_new_trace w t.base (.c_str t.this) ep).status = 0
  · simp [Trace.init_info, hr, Trace.set_info]
  · simp [Trace.init_info, hr] at hs

/-! ## Derivation from a parent -/

/-- C1: for a valid parent `P` (trace id not 0), the constructor
`Trace(name, ep, &P)`, when identity generation delivers an id, and an
`init(name, ep, &P)` that returns 0 both give a Trace with the trace id of
`P`, the span id of `P` as parent span id and the freshly minted span id; its
default endpoint is `ep` when `ep` is given and the default endpoint of `P`
when `ep` is null. -/
theorem child_of_valid_parent (w : Spec.World) (this : Nat) (raw : blkin_trace) (t : Trace)
    (name : CharPtr) (ep : EndpointPtr) (P : Trace) (hP : P.base.info.trace_id ≠ 0) :
    (∀ id w1, Spec.mint w = some (id, w1) →
      (Trace.ofParent Spec.lib w this raw name ep (some P)).1.get_info
          = ⟨P.base.info.trace_id, id, P.base.info.span_id⟩ ∧
      (∀ e, ep = some e →
        (Trace.ofParent Spec.lib w this raw name ep (some P)).1.base.endpoint = some e) ∧
      (ep = none →
        (Trace.ofParent Spec.lib w this raw name ep (some P)).1.base.endpoint
          = P.base.endpoint)) ∧
    ((Trace.init Spec.lib w t name ep (some P)).status = 0 →
      (∃ id w1, Spec.mint w = some (id, w1) ∧
        (Trace.init Spec.lib w t name ep (some P)).trace.get_info
          = ⟨P.base.info.trace_id, id, P.base.info.span_id⟩) ∧
      (∀ e, ep = some e →
        (Trace.init Spec.lib w t name ep (some P)).trace.base.endpoint = some e) ∧
      (ep = none →
        (Trace.init Spec.lib w t name ep (some P)).trace.base.endpoint
          = P.base.endpoint)) := by
  have hv : P.valid = true := by simpa [Trace.valid] using hP
  constructor
  · intro id w1 hm
    have hc := Spec.child_info_of_mint hm
    refine ⟨?_, ?_, ?_⟩
    · simp [Trace.ofParent, hv, Spec.lib, Spec.blkin_init_child, hc, Trace.get_info]
    · intro e he
      subst he
      simp [Trace.ofParent, hv, Spec.lib, Spec.blkin_init_child, hc]
    · intro he
      subst he
      simp [Trace.ofParent, hv, Spec.lib, Spec.blkin_init_child, hc]
  · intro hs
    have hs1 : (Spec.blkin_init_child_info w t.base P.base.info
        (ep <|> P.base.endpoint) name).status = 0 := by
      simpa [Trace.init, hv, Spec.lib, Spec.blkin_init_child] using hs
    obtain ⟨id, w1, hm, -⟩ := Spec.child_info_status _ _ _ _ _ hs1
    have hc := Spec.child_info_of_mint hm
    refine ⟨⟨id, w1, hm, ?_⟩, ?_, ?_⟩
    · simp [Trace.init, hv, Spec.lib, Spec.blkin_init_child, hc, Trace.get_info]
    · intro e he
      subst he
      simp [Trace.init, hv, Spec.lib, Spec.blkin_init_child, hc]
    · intro he
      subst he
      simp [Trace.init, hv, Spec.lib, Spec.blkin_init_child, hc]

/-- Witness of C1: the child "db-call" of the root at address 1, derived with a
null endpoint, has trace id 11, parent span id 12, the minted span id 5 and
the endpoint of the root. -/
theorem child_of_valid_parent_witness :
    sampleRoot.base.info.trace_id ≠ 0 ∧
    Spec.mint sampleWorld = some (5, { sampleWorld with draws := [6, 9] }) ∧
    (Trace.ofParent Spec.lib sampleWorld 2 sampleRaw (.ext 501 "db-call") none
        (some sampleRoot)).1.get_info = ⟨11, 5, 12⟩ ∧
    (Trace.ofParent Spec.lib sampleWorld 2 sampleRaw (.ext 501 "db-call") none
        (some sampleRoot)).1.base.endpoint = some 10 ∧
    (Trace.init Spec.lib sampleWorld (Trace.default 2) (.ext 501 "db-call") none
        (some sampleRoot)).status = 0 ∧
    (Trace.init Spec.lib sampleWorld (Trace.default 2) (.ext 501 "db-call") none
        (some sampleRoot)).trace.base.endpoint = some 10 := by
  have hP : sampleRoot.base.info.trace_id ≠ 0 := by decide
  have hm : Spec.mint sampleWorld = some (5, { sampleWorld with draws := [6, 9] }) := by
    decide
  have hs : (Trace.init Spec.lib sampleWorld (Trace.default 2) (.ext 501 "db-call") none
      (some sampleRoot)).status = 0 := by decide
  have h := child_of_valid_parent sampleWorld 2 sampleRaw (Trace.default 2)
    (.ext 501 "db-call") none sampleRoot hP
  exact ⟨hP, hm, (h.1 5 _ hm).1, (h.1 5 _ hm).2.2 rfl, hs, (h.2 hs).2.2 rfl⟩

/-- C2: with a parent that is null or invalid (trace id 0), over every
implementation of the C library, the constructor `Trace(name, ep, parent)`
gives the same object and library state as the root constructor
`Trace(name, ep)` (the same constructor with its default `parent = NULL`),
and `init(name, ep, parent)` the same status, object and library state as
`init(name, ep)`; the result is what `blkin_init_new_trace` makes of `name`
and `ep`, with nothing read from the parent. -/
theorem invalid_parent_is_root {W : Type} (lib : Blkin W) (w : W) (this : Nat)
    (raw : blkin_trace) (t : Trace) (name : CharPtr) (ep : EndpointPtr)
    (parent : Option Trace) (h : ∀ p, parent = some p → p.base.info.trace_id = 0) :
    Trace.ofParent lib w this raw name ep parent = Trace.ofParent lib w this raw name ep none ∧
    Trace.init lib w t name ep parent = Trace.init lib w t name ep none ∧
    (Trace.ofParent lib w this raw name ep parent).1.base
      = (lib.blkin_init_new_trace w raw name ep).trace ∧
    (Trace.init lib w t name ep parent).trace.base
      = (lib.blkin_init_new_trace w t.base name ep).trace ∧
    (Trace.init lib w t name ep parent).status
      = (lib.blkin_init_new_trace w t.base name ep).status := by
  cases parent with
  | none => simp [Trace.ofParent, Trace.init]
  | some p =>
    have hv : p.valid = false := by simp [Trace.valid, h p rfl]
    simp [Trace.ofParent, Trace.init, hv]

/-- Witness of C2: deriving from the invalid Trace at address 9 with a null
endpoint gives the root with the minted ids 5 and 6 and no endpoint; neither
the ids 55 and 56 nor the endpoint 20 of the invalid parent appear. -/
theorem invalid_parent_is_root_witness :
    (∀ p, some staleTrace = some p → p.base.info.trace_id = 0) ∧
    (Trace.ofParent Spec.lib sampleWorld 2 sampleRaw (.ext 501 "db-call") none
        (some staleTrace)).1.base
      = { name := .ext 501 "db-call", info := ⟨5, 6, 0⟩, endpoint := none } ∧
    Trace.init Spec.lib sampleWorld (Trace.default 2) (.ext 501 "db-call") none (some staleTrace)
      = Trace.init Spec.lib sampleWorld (Trace.default 2) (.ext 501 "db-call") none none := by
  have h0 : ∀ p, some staleTrace = some p → p.base.info.trace_id = 0 := by
    intro p hp
    cases hp
    rfl
  have h := invalid_parent_is_root Spec.lib sampleWorld 2 sampleRaw (Trace.default 2)
    (.ext 501 "db-call") none (some staleTrace) h0
  exact ⟨h0, h.2.2.1.trans (by decide), h.2.1⟩

/-! ## Construction from a received context -/

/-- C3: over every implementation of the C library, the constructor
`Trace(name, ep, &ctx, false)` gives a Trace whose `get_info()` is `ctx` in
all three fields, and an `init(name, ep, &ctx, false)` that returns 0 leaves
`get_info()` equal to `ctx`. -/
theorem from_context_resume {W : Type} (lib : Blkin W) (w : W) (this : Nat)
    (raw : blkin_trace) (t : Trace) (name : CharPtr) (ep : EndpointPtr)
    (ctx : blkin_trace_info) :
    (Trace.ofInfo lib w this raw name ep ctx false).1.get_info = ctx ∧
    ((Trace.init_info lib w t name ep ctx false).status = 0 →
      (Trace.init_info lib w t name ep ctx false).trace.get_info = ctx) := by
  constructor
  · simp [Trace.ofInfo, Trace.set_info, Trace.get_info]
  · intro hs
    exact Trace.init_info_resume lib w t name ep ctx hs

/-- Witness of C3: the context (42, 7, 0) is exported as (42, 7, 0), by the
constructor and by an `init` that returns 0, although the generator would
have delivered 5 and 6. -/
theorem from_context_resume_witness :
    (Trace.ofInfo Spec.lib sampleWorld 2 sampleRaw (.ext 501 "db-call") (some 10)
        sampleCtx false).1.get_info = ⟨42, 7, 0⟩ ∧
    (Trace.init_info Spec.lib sampleWorld (Trace.default 2) (.ext 501 "db-call") (some 10)
        sampleCtx false).status = 0 ∧
    (Trace.init_info Spec.lib sampleWorld (Trace.default 2) (.ext 501 "db-call") (some 10)
        sampleCtx false).trace.get_info = ⟨42, 7, 0⟩ := by
  have hs : (Trace.init_info Spec.lib sampleWorld (Trace.default 2) (.ext 501 "db-call")
      (some 10) sampleCtx false).status = 0 := by decide
  have h := from_context_resume Spec.lib sampleWorld 2 sampleRaw (Trace.default 2)
    (.ext 501 "db-call") (some 10) sampleCtx
  exact ⟨h.1, hs, h.2 hs⟩

/-- C4: with `child == true` the context is the parent's.  The constructor
`Trace(name, ep, &ctx, true)`, when identity generation delivers an id, and an
`init(name, ep, &ctx, true)` that returns 0 both give a Trace whose context is
(`ctx.trace_id`, the minted id, `ctx.span_id`); `ctx.parent_span_id` does not
occur in it. -/
theorem from_context_child (w : Spec.World) (this : Nat) (raw : blkin_trace) (t : Trace)
    (name : CharPtr) (ep : EndpointPtr) (ctx : blkin_trace_info) :
    (∀ id w1, Spec.mint w = some (id, w1) →
      (Trace.ofInfo Spec.lib w this raw name ep ctx true).1.get_info
        = ⟨ctx.trace_id, id, ctx.span_id⟩) ∧
    ((Trace.init_info Spec.lib w t name ep ctx true).status = 0 →
      ∃ id w1, Spec.mint w = some (id, w1) ∧
        (Trace.init_info Spec.lib w t name ep ctx true).trace.get_info
          = ⟨ctx.trace_id, id, ctx.span_id⟩) := by
  constructor
  · intro id w1 hm
    simp [Trace.ofInfo, Spec.lib, Spec.child_info_of_mint hm, Trace.get_info]
  · intro hs
    have hs1 : (Spec.blkin_init_child_info w t.base ctx ep (.c_str t.this)).status = 0 := by
      simpa [Trace.init_info, Spec.lib] using hs
    obtain ⟨id, w1, hm, -⟩ := Spec.child_info_status _ _ _ _ _ hs1
    exact ⟨id, w1, hm, by
      simp [Trace.init_info, Spec.lib, Spec.child_info_of_mint hm, Trace.get_info]⟩

/-- Witness of C4: the context (42, 7, 0) gives trace id 42 and parent span id
7, with the minted span id 5, by the constructor and by `init`. -/
theorem from_context_child_witness :
    Spec.mint sampleWorld = some (5, { sampleWorld with draws := [6, 9] }) ∧
    (Trace.ofInfo Spec.lib sampleWorld 2 sampleRaw (.ext 501 "db-call") (some 10)
        sampleCtx true).1.get_info = ⟨42, 5, 7⟩ ∧
    (Trace.init_info Spec.lib sampleWorld (Trace.default 2) (.ext 501 "db-call") (some 10)
        sampleCtx true).status = 0 ∧
    (Trace.init_info Spec.lib sampleWorld (Trace.default 2) (.ext 501 "db-call") (some 10)
        sampleCtx true).trace.get_info = ⟨42, 5, 7⟩ := by
  have hm : Spec.mint sampleWorld = some (5, { sampleWorld with draws := [6, 9] }) := by
    decide
  have hs : (Trace.init_info Spec.lib sampleWorld (Trace.default 2) (.ext 501 "db-call")
      (some 10) sampleCtx true).status = 0 := by decide
  have h := from_context_child sampleWorld 2 sampleRaw (Trace.default 2)
    (.ext 501 "db-call") (some 10) sampleCtx
  obtain ⟨id, w1, hm1, hi⟩ := h.2 hs
  have hid : id = 5 := by
    rw [hm] at hm1
    simp only [Option.some.injEq, Prod.mk.injEq] at hm1
    exact hm1.1.symm
  subst hid
  exact ⟨hm, h.1 5 _ hm, hs, hi⟩

/-! ## Export and import of the context -/

/-- C5: export undoes import.  For every Trace `t` and every context `ctx`,
with trace id 0 or not, `get_info()` after `set_info(&ctx)` is `ctx`, field
for field. -/
theorem get_info_set_info (t : Trace) (ctx : blkin_trace_info) :
    (t.set_info ctx).get_info = ctx ∧
    (t.set_info ctx).get_info.trace_id = ctx.trace_id ∧
    (t.set_info ctx).get_info.span_id = ctx.span_id ∧
    (t.set_info ctx).get_info.parent_span_id = ctx.parent_span_id :=
  ⟨rfl, rfl, rfl, rfl⟩

/-! ## The annotation calls -/

/-- C6: on a Trace with trace id 0, over every implementation of the C
macros, each of the four `keyval` overloads and the two `event` overloads
returns the Trace and the library state (the collector with its log) as they
were. -/
theorem invalid_trace_no_op {W : Type} (lib : Blkin W) (w : W) (t : Trace)
    (h : t.base.info.trace_id = 0) (key val label : CharPtr) (n : Int) (ep : EndpointPtr) :
    t.keyval lib w key val = (t, w) ∧
    t.keyval_int lib w key n = (t, w) ∧
    t.keyval_ep lib w key val ep = (t, w) ∧
    t.keyval_int_ep lib w key n ep = (t, w) ∧
    t.event lib w label = (t, w) ∧
    t.event_ep lib w label ep = (t, w) := by
  have hv : t.valid = false := by simp [Trace.valid, h]
  simp [Trace.keyval, Trace.keyval_int, Trace.keyval_ep, Trace.keyval_int_ep, Trace.event,
    Trace.event_ep, hv]

/-- Witness of C6: a default-constructed Trace emits nothing, where the same
call on a valid Trace hands a record to the collector. -/
theorem invalid_trace_no_op_witness :
    (Trace.default 2).base.info.trace_id = 0 ∧
    ((Trace.default 2).keyval Spec.lib sampleWorld (.ext 600 "k") (.ext 601 "v")).2.log = [] ∧
    ((Trace.default 2).event_ep Spec.lib sampleWorld (.ext 602 "start") (some 10)).2.log = [] ∧
    (sampleRoot.keyval Spec.lib sampleWorld (.ext 600 "k") (.ext 601 "v")).2.log
      = [.keyval_string ⟨11, 12, 0⟩ (some 10) (.ext 600 "k") (.ext 601 "v")] := by
  have h := invalid_trace_no_op Spec.lib sampleWorld (Trace.default 2) rfl
    (.ext 600 "k") (.ext 601 "v") (.ext 602 "start") 0 (some 10)
  refine ⟨rfl, ?_, ?_, by decide⟩
  · rw [h.1]
    rfl
  · rw [h.2.2.2.2.2]
    rfl

/-! ## Validity after `init` -/

/-- C7, as stated, fails: on a default-constructed Trace, `init` with the
context (0, 7, 0) returns 0 and leaves `valid()` false, with `child` false and
with `child` true. -/
theorem init_info_zero_context :
    (Trace.default 2).valid = false ∧
    (Trace.init_info Spec.lib sampleWorld (Trace.default 2) (.ext 501 "db-call") (some 10)
        ⟨0, 7, 0⟩ false).status = 0 ∧
    (Trace.init_info Spec.lib sampleWorld (Trace.default 2) (.ext 501 "db-call") (some 10)
        ⟨0, 7, 0⟩ false).trace.valid = false ∧
    (Trace.init_info Spec.lib sampleWorld (Trace.default 2) (.ext 501 "db-call") (some 10)
        ⟨0, 7, 0⟩ true).status = 0 ∧
    (Trace.init_info Spec.lib sampleWorld (Trace.default 2) (.ext 501 "db-call") (some 10)
        ⟨0, 7, 0⟩ true).trace.valid = false := by
  decide

/-- C7, amended: a default-constructed Trace has `valid()` false; an `init`
with a parent that returns 0 leaves `valid()` true; an `init` with a context
that returns 0 leaves the trace id of the context in the Trace, so that
`valid()` is true exactly when `ctx.trace_id` is not 0. -/
theorem init_success_valid (w : Spec.World) (this : Nat) (t : Trace) (name : CharPtr)
    (ep : EndpointPtr) :
    (Trace.default this).valid = false ∧
    (∀ parent, (Trace.init Spec.lib w t name ep parent).status = 0 →
      (Trace.init Spec.lib w t name ep parent).trace.valid = true) ∧
    (∀ ctx child, (Trace.init_info Spec.lib w t name ep ctx child).status = 0 →
      (Trace.init_info Spec.lib w t name ep ctx child).trace.get_info.trace_id = ctx.trace_id ∧
      ((Trace.init_info Spec.lib w t name ep ctx child).trace.valid = true ↔
        ctx.trace_id ≠ 0)) := by
  have root : ∀ nm, (Spec.blkin_init_new_trace w t.base nm ep).status = 0 →
      (Spec.blkin_init_new_trace w t.base nm ep).trace.info.trace_id ≠ 0 := by
    intro nm hs
    obtain ⟨tid, sid, w1, w2, hm, -, hr⟩ := Spec.new_trace_status _ _ _ _ hs
    rw [hr]
    exact Spec.mint_nonzero _ _ _ hm
  refine ⟨rfl, ?_, ?_⟩
  · intro parent hs
    by_cases hp : ∀ p, parent = some p → p.valid = false
    · rw [Trace.init_of_invalid _ _ _ _ _ _ hp] at hs ⊢
      have h1 := root name hs
      simpa [Trace.valid] using h1
    · push_neg at hp
      obtain ⟨p, rfl, hv⟩ := hp
      have hv1 : p.valid = true := by simpa using hv
      rw [Trace.init_of_valid _ _ _ _ _ _ hv1] at hs ⊢
      obtain ⟨id, w1, hm, -⟩ := Spec.child_info_status _ _ _ _ _ hs
      have hp : p.base.info.trace_id ≠ 0 := by simpa [Trace.valid] using hv1
      simpa [Spec.lib, Spec.blkin_init_child, Spec.child_info_of_mint hm, Trace.valid] using hp
  · intro ctx child hs
    cases child with
    | true =>
      have hs1 : (Spec.blkin_init_child_info w t.base ctx ep (.c_str t.this)).status = 0 := by
        simpa [Trace.init_info, Spec.lib] using hs
      obtain ⟨id, w1, hm, -⟩ := Spec.child_info_status _ _ _ _ _ hs1
      simp [Trace.init_info, Spec.lib, Spec.child_info_of_mint hm, Trace.valid, Trace.get_info]
    | false =>
      have h3 := Trace.init_info_resume Spec.lib w t name ep ctx hs
      simp [Trace.valid, Trace.get_info, h3]

/-- Witness of C7, amended: on a default-constructed Trace, `init` as a root
returns 0 and leaves `valid()` true, and `init` with the context (42, 7, 0)
returns 0 and leaves `valid()` true. -/
theorem init_success_valid_witness :
    (Trace.default 2).valid = false ∧
    (Trace.init Spec.lib sampleWorld (Trace.default 2) (.ext 501 "db-call") (some 10)
        none).status = 0 ∧
    (Trace.init Spec.lib sampleWorld (Trace.default 2) (.ext 501 "db-call") (some 10)
        none).trace.valid = true ∧
    (Trace.init_info Spec.lib sampleWorld (Trace.default 2) (.ext 501 "db-call") (some 10)
        sampleCtx false).status = 0 ∧
    (Trace.init_info Spec.lib sampleWorld (Trace.default 2) (.ext 501 "db-call") (some 10)
        sampleCtx false).trace.valid = true := by
  have h := init_success_valid sampleWorld 2 (Trace.default 2) (.ext 501 "db-call") (some 10)
  have hs1 : (Trace.init Spec.lib sampleWorld (Trace.default 2) (.ext 501 "db-call") (some 10)
      none).status = 0 := by decide
  have hs2 : (Trace.init_info Spec.lib sampleWorld (Trace.default 2) (.ext 501 "db-call")
      (some 10) sampleCtx false).status = 0 := by decide
  exact ⟨h.1, hs1, h.2.1 none hs1, hs2, ((h.2.2 sampleCtx false hs2).2).2 (by decide)⟩

/-! ## `init` against the constructors -/

/-- C8 fails on the code for the overload that takes a context: whenever
`init(name, ep, &ctx, child)` returns 0, the name of the Trace is bound to
`_name.c_str()`, its own storage, whatever `name` was passed (the result is
the same for every other `name`), where the constructor
`Trace(name, ep, &ctx, child)` from the same generator state binds `name`. -/
theorem init_info_ignores_name (w : Spec.World) (this : Nat) (raw : blkin_trace) (t : Trace)
    (name : CharPtr) (ep : EndpointPtr) (ctx : blkin_trace_info) (child : Bool)
    (hs : (Trace.init_info Spec.lib w t name ep ctx child).status = 0) :
    (Trace.init_info Spec.lib w t name ep ctx child).trace.base.name = .c_str t.this ∧
    (Trace.init_info Spec.lib w t name ep ctx child).trace.name_text = some t._name ∧
    (∀ other, (Trace.init_info Spec.lib w t other ep ctx child).trace
      = (Trace.init_info Spec.lib w t name ep ctx child).trace) ∧
    (Trace.ofInfo Spec.lib w this raw name ep ctx child).1.base.name = name := by
  have key : (Trace.init_info Spec.lib w t name ep ctx child).trace.base.name = .c_str t.this ∧
      (Trace.ofInfo Spec.lib w this raw name ep ctx child).1.base.name = name := by
    cases child with
    | true =>
      have hs1 : (Spec.blkin_init_child_info w t.base ctx ep (.c_str t.this)).status = 0 := by
        simpa [Trace.init_info, Spec.lib] using hs
      obtain ⟨id, w1, hm, -⟩ := Spec.child_info_status _ _ _ _ _ hs1
      simp [Trace.init_info, Trace.ofInfo, Spec.lib, Spec.child_info_of_mint hm]
    | false =>
      have hs1 : (Spec.blkin_init_new_trace w t.base (.c_str t.this) ep).status = 0 := by
        by_cases hr : (Spec.blkin_init_new_trace w t.base (.c_str t.this) ep).status = 0
        · exact hr
        · simp [Trace.init_info, Spec.lib, hr] at hs
      obtain ⟨tid, sid, w1, w2, hm, hm1, -⟩ := Spec.new_trace_status _ _ _ _ hs1
      simp [Trace.init_info, Trace.ofInfo, Spec.lib, Spec.blkin_init_new_trace, hm, hm1,
        Trace.set_info]
  have hthis : (Trace.init_info Spec.lib w t name ep ctx child).trace.this = t.this ∧
      (Trace.init_info Spec.lib w t name ep ctx child).trace._name = t._name := by
    unfold Trace.init_info
    cases child
    · simp only [Bool.false_eq_true, if_false]
      split <;> simp [Trace.set_info]
    · simp
  refine ⟨key.1, ?_, fun _ => rfl, key.2⟩
  simp [Trace.name_text, key.1, hthis.1, hthis.2]

/-- Witness of C8 failing: on a default-constructed Trace at address 2,
`init("db-call", ep, &ctx, false)` returns 0 and leaves the name bound to the
empty `_name` storage, where the constructor binds "db-call". -/
theorem init_info_ignores_name_witness :
    (Trace.init_info Spec.lib sampleWorld (Trace.default 2) (.ext 501 "db-call") (some 10)
        sampleCtx false).status = 0 ∧
    (Trace.init_info Spec.lib sampleWorld (Trace.default 2) (.ext 501 "db-call") (some 10)
        sampleCtx false).trace.base.name = .c_str 2 ∧
    (Trace.init_info Spec.lib sampleWorld (Trace.default 2) (.ext 501 "db-call") (some 10)
        sampleCtx false).trace.name_text = some "" ∧
    (Trace.ofInfo Spec.lib sampleWorld 2 sampleRaw (.ext 501 "db-call") (some 10)
        sampleCtx false).1.base.name = .ext 501 "db-call" ∧
    (Trace.ofInfo Spec.lib sampleWorld 2 sampleRaw (.ext 501 "db-call") (some 10)
        sampleCtx false).1.name_text = some "db-call" := by
  have hs : (Trace.init_info Spec.lib sampleWorld (Trace.default 2) (.ext 501 "db-call")
      (some 10) sampleCtx false).status = 0 := by decide
  have h := init_info_ignores_name sampleWorld 2 sampleRaw (Trace.default 2)
    (.ext 501 "db-call") (some 10) sampleCtx false hs
  exact ⟨hs, h.1, h.2.1, h.2.2.2, by decide⟩

/-! ## Constructors when the C call fails -/

/-- C9 fails on the code: over every implementation of the C library, when
`blkin_init_new_trace` fails inside the constructor
`Trace(name, ep, &ctx, false)`, the context is overwritten with `ctx` all the
same, so that for a `ctx` with a trace id other than 0 the constructed Trace
has `valid()` true. -/
theorem ofInfo_valid_after_failure {W : Type} (lib : Blkin W) (w : W) (this : Nat)
    (raw : blkin_trace) (name : CharPtr) (ep : EndpointPtr) (ctx : blkin_trace_info)
    (hf : (lib.blkin_init_new_trace w raw name ep).status ≠ 0) (hc : ctx.trace_id ≠ 0) :
    (Trace.ofInfo lib w this raw name ep ctx false).1.valid = true ∧
    (Trace.ofInfo lib w this raw name ep ctx false).1.get_info = ctx := by
  simp [Trace.ofInfo, Trace.set_info, Trace.valid, Trace.get_info, hc]

/-- Witness of C9 failing: with a generator that has nothing to deliver and
storage that is all zero, `blkin_init_new_trace` returns -1 and the Trace
constructed from the context (42, 7, 0) with `child` false has `valid()`
true. -/
theorem ofInfo_valid_after_failure_witness :
    (Spec.lib.blkin_init_new_trace dryWorld zeroRaw (.ext 501 "db-call") (some 10)).status = -1 ∧
    (Trace.ofInfo Spec.lib dryWorld 2 zeroRaw (.ext 501 "db-call") (some 10)
        sampleCtx false).1.valid = true ∧
    (Trace.ofInfo Spec.lib dryWorld 2 zeroRaw (.ext 501 "db-call") (some 10)
        sampleCtx false).1.get_info = ⟨42, 7, 0⟩ := by
  have h := ofInfo_valid_after_failure Spec.lib dryWorld 2 zeroRaw (.ext 501 "db-call")
    (some 10) sampleCtx (by decide) (by decide)
  exact ⟨by decide, h.1, h.2⟩

/-! ## Copying -/

/-- C10: the copy `c` of a Trace `s` has the context, the endpoint pointer and
the `_name` text of `s`.  If the name of `s` is bound to the storage of `s`,
the name of `c` is bound to the storage of `c` and reads the same text;
otherwise (a borrowed or null name) the name of `c` is the very pointer `s`
has.  The name text of `c` is that of `s` for every `s` whose name is null,
borrowed from the caller or bound to its own storage. -/
theorem copy_preserves (this : Nat) (s : Trace) :
    (Trace.copy this s).get_info = s.get_info ∧
    (Trace.copy this s).base.endpoint = s.base.endpoint ∧
    (Trace.copy this s)._name = s._name ∧
    (s.base.name = .c_str s.this →
      (Trace.copy this s).base.name = .c_str (Trace.copy this s).this ∧
      (Trace.copy this s).name_text = some s._name ∧
      s.name_text = some s._name) ∧
    (s.base.name ≠ .c_str s.this → (Trace.copy this s).base.name = s.base.name) ∧
    ((∀ o, s.base.name = .c_str o → o = s.this) →
      (Trace.copy this s).name_text = s.name_text) := by
  refine ⟨rfl, rfl, rfl, ?_, ?_, ?_⟩
  · intro h
    simp [Trace.copy, Trace.name_text, h]
  · intro h
    simp [Trace.copy, h]
  · intro h
    cases hn : s.base.name with
    | null => simp [Trace.copy, Trace.name_text, hn]
    | ext a txt => simp [Trace.copy, Trace.name_text, hn]
    | c_str o =>
      have ho := h o hn
      subst ho
      simp [Trace.copy, Trace.name_text, hn]

/-- Witness of C10: the copy at address 3 of a Trace whose name is bound to
its own storage is bound to the storage at address 3 with the text
"tmp-name"; the copy of a default-constructed Trace has the null name; the
copy of a Trace with a borrowed name has the same borrowed pointer. -/
theorem copy_preserves_witness :
    ownedTrace.base.name = .c_str ownedTrace.this ∧
    (Trace.copy 3 ownedTrace).base.name = .c_str 3 ∧
    (Trace.copy 3 ownedTrace).name_text = some "tmp-name" ∧
    (Trace.copy 3 ownedTrace).get_info = ⟨11, 12, 0⟩ ∧
    (Trace.copy 3 (Trace.default 2)).base.name = .null ∧
    (Trace.copy 3 sampleRoot).base.name = .ext 500 "request" ∧
    (Trace.copy 3 sampleRoot).name_text = some "request" := by
  have h := copy_preserves 3 ownedTrace
  have ho : ownedTrace.base.name = .c_str ownedTrace.this := rfl
  exact ⟨ho, (h.2.2.2.1 ho).1, (h.2.2.2.1 ho).2.1, h.1, by decide, by decide, by decide⟩

end ZTracer
